import Mathlib

set_option maxHeartbeats 1000000
set_option linter.unusedVariables false

/-!
Verification development for `dependency_guesser.py`.

The program has three parts, embedded below over `List Char` strings:

* `parse_missing_module` — the failure-signature parser: three regex
  templates tried in order with `re.search` (leftmost-match) semantics.
* `install_package` — the pip installer, with the interactive consent
  gate; the operator's prompt answer and the pip subprocess result are
  supplied by an `InstallEnv` oracle.
* `resolve_dependencies` — the retry loop (`while retries < max_retries`),
  driven by a per-attempt oracle `Nat → AttemptEnv` giving the outcome of
  running the target script on each attempt.  The target script path and
  the timeout value are absorbed into this oracle (they only influence
  which `RunResult` the subprocess produces).

Process exits (`sys.exit(1)`) are distinguished from normal loop exit:
`LoopOutcome.report` means control fell through to the final summary
block (which prints `installed_packages`), while `LoopOutcome.exitNoReport`
means the process exited before the summary.  The `print()` payloads that
surface the captured output streams in the terminal branches are recorded
in the `report` constructor.
-/

namespace DependencyGuesser

/-- Single-quote character, written via its code point so that quote
characters never appear inside string literals of this file. -/
def squote : Char := Char.ofNat 39

/-- Double-quote character. -/
def dquote : Char := Char.ofNat 34

/-- Python whitespace for `str.strip()` and for the regex class of
backslash-s over ASCII text: space, tab, newline, carriage return,
vertical tab, form feed. -/
def isPySpace (c : Char) : Bool :=
  c = ' ' || c = '\t' || c = '\n' || c = '\r' || c = '\x0b' || c = '\x0c'

/-- Complement of `isPySpace`: the character class of backslash-S. -/
def notSpace (c : Char) : Bool := !(isPySpace c)

/-- Literal head of the first template: `No module named ` followed by a
single quote. -/
def litNoModuleSQ : List Char := "No module named ".toList ++ [squote]

/-- Literal head of the second template: `No module named ` followed by a
double quote. -/
def litNoModuleDQ : List Char := "No module named ".toList ++ [dquote]

/-- Literal head of the third template: `ImportError: No module named `
(with the trailing space of the regex). -/
def litImportError : List Char := "ImportError: No module named ".toList

/-- Strip a literal from the front of a string: `some rest` when the
string is the literal followed by `rest`, else `none`. -/
def stripLit : List Char → List Char → Option (List Char)
  | [], s => some s
  | _ :: _, [] => none
  | a :: as, b :: bs => if a = b then stripLit as bs else none

/-- Characters before the first occurrence of `q`, or `none` when `q`
does not occur: the semantics of a greedy `[^q]*` capture that must be
followed by a closing `q`. -/
def takeUntil (q : Char) : List Char → Option (List Char)
  | [] => none
  | c :: cs => if c = q then some [] else (takeUntil q cs).map (fun t => c :: t)

/-- Match one quoted template at the current position: the literal head,
then a capture of quote-free characters, then the closing quote. -/
def matchQuotedAt (lit : List Char) (q : Char) (s : List Char) : Option (List Char) :=
  match stripLit lit s with
  | some rest => takeUntil q rest
  | none => none

/-- Match the unquoted `ImportError` template at the current position:
the literal head, then a maximal non-empty run of non-whitespace
characters (greedy backslash-S-plus). -/
def matchUnquotedAt (s : List Char) : Option (List Char) :=
  match stripLit litImportError s with
  | some rest =>
    let cap := rest.takeWhile notSpace
    if cap.isEmpty then none else some cap
  | none => none

/-- Leftmost-match search, the semantics of `re.search`: try the matcher
at each position from the left, returning the first success. -/
def reSearch (tryAt : List Char → Option (List Char)) : List Char → Option (List Char)
  | [] => tryAt []
  | c :: cs =>
    match tryAt (c :: cs) with
    | some r => some r
    | none => reSearch tryAt cs

/-- Embedding of `parse_missing_module` (lines 13-27): the three
templates tried in their listed order, each with `re.search`; the first
template that matches anywhere wins, and its captured group is returned. -/
def parse_missing_module (stderr_output : List Char) : Option (List Char) :=
  match reSearch (matchQuotedAt litNoModuleSQ squote) stderr_output with
  | some m => some m
  | none =>
    match reSearch (matchQuotedAt litNoModuleDQ dquote) stderr_output with
    | some m => some m
    | none => reSearch matchUnquotedAt stderr_output

/-- Python truthiness of the parser's result as used by the loop's
`if missing_module:` test: `None` and the empty string are falsy. -/
def pyTruthy : Option (List Char) → Bool
  | none => false
  | some s => !s.isEmpty

/-- Python `str.lower()` restricted to the ASCII letters that occur in
the consent comparison. -/
def pyLower (s : List Char) : List Char := s.map Char.toLower

/-- Python `str.strip()`: drop whitespace at both ends. -/
def pyStrip (s : List Char) : List Char :=
  ((s.dropWhile isPySpace).reverse.dropWhile isPySpace).reverse

/-- The answers accepted by the consent gate, `["", "y", "yes"]`. -/
def consentResponses : List (List Char) := ["".toList, "y".toList, "yes".toList]

/-- What happened at the interactive confirmation prompt. -/
inductive PromptEvent where
  | response (s : List Char)
  | interrupt
deriving DecidableEq

/-- Result of the pip subprocess invocation: a completed run with exit
status and captured streams, or `FileNotFoundError` for a missing
interpreter. -/
inductive PipResult where
  | exited (returncode : Int) (stdout stderr : List Char)
  | fnf
deriving DecidableEq

/-- Oracle consumed by one `install_package` call. -/
structure InstallEnv where
  prompt : PromptEvent
  pip : PipResult
deriving DecidableEq

/-- Outcome of `install_package`, one constructor per return site of the
source function (lines 30-69).  `interrupted` is the `KeyboardInterrupt`
handler's `sys.exit(1)`. -/
inductive InstallResult where
  | emptyName
  | declined
  | interrupted
  | installedOk
  | pipFailed (returncode : Int) (stderr : List Char)
  | pythonNotFound
deriving DecidableEq

/-- The pip invocation itself (lines 51-69): exit 0 returns success,
`CalledProcessError` (nonzero exit under `check=True`) returns failure
with the exit status and stderr, `FileNotFoundError` returns failure. -/
def runPip (env : InstallEnv) : InstallResult :=
  match env.pip with
  | PipResult.exited rc _ err =>
    if rc = 0 then InstallResult.installedOk else InstallResult.pipFailed rc err
  | PipResult.fnf => InstallResult.pythonNotFound

/-- Embedding of `install_package` (lines 30-69): empty-name guard, then
the consent gate (skipped under `assume_yes`), then the pip invocation.
The consent test is the source's `prompt.lower().strip() not in
["", "y", "yes"]`. -/
def install_package (package_name python_executable : List Char) (assume_yes : Bool)
    (env : InstallEnv) : InstallResult :=
  if package_name = [] then
    InstallResult.emptyName
  else if assume_yes then
    runPip env
  else
    match env.prompt with
    | PromptEvent.interrupt => InstallResult.interrupted
    | PromptEvent.response r =>
      if pyStrip (pyLower r) ∈ consentResponses then runPip env
      else InstallResult.declined

/-- The boolean first component of the source's `(success, message)`
return value. -/
def InstallResult.installed : InstallResult → Bool
  | InstallResult.installedOk => true
  | _ => false

/-- Whether the pip subprocess was actually invoked on this call. -/
def InstallResult.pipInvoked : InstallResult → Bool
  | InstallResult.installedOk => true
  | InstallResult.pipFailed _ _ => true
  | InstallResult.pythonNotFound => true
  | _ => false

/-- Message of the declined branch: `User declined to install NAME.` -/
def declinedMessage (package_name : List Char) : List Char :=
  "User declined to install ".toList ++ package_name ++ ".".toList

/-- Message of the `CalledProcessError` branch, built exactly as in
lines 63-65 of the source. -/
def installFailMessage (package_name : List Char) (rc : Int) (err : List Char) : List Char :=
  "Failed to install ".toList ++ [squote] ++ package_name ++ [squote] ++ ".\n".toList ++
  "pip exited with status ".toList ++ (toString rc).toList ++ ".\n".toList ++
  "Stderr:\n".toList ++ err

/-- Message of the `FileNotFoundError` branch. -/
def notFoundMessage (python_executable : List Char) : List Char :=
  "Error: ".toList ++ [squote] ++ python_executable ++ [squote] ++
  " command not found. Is Python installed and in your PATH?".toList

/-- The string second component of the source's `(success, message)`
return value (empty for the `interrupted` case, which never returns). -/
def installMessage (package_name python_executable : List Char) : InstallResult → List Char
  | InstallResult.emptyName => "No package name provided.".toList
  | InstallResult.declined => declinedMessage package_name
  | InstallResult.interrupted => []
  | InstallResult.installedOk => []
  | InstallResult.pipFailed rc err => installFailMessage package_name rc err
  | InstallResult.pythonNotFound => notFoundMessage python_executable

/-- Result of one `subprocess.run` of the target script: a completed run,
a `TimeoutExpired`, or a `FileNotFoundError`. -/
inductive RunResult where
  | finished (returncode : Int) (stdout stderr : List Char)
  | timedOut
  | fileNotFound
deriving DecidableEq

/-- Oracle for one loop attempt: the run outcome and the installer's
environment for that attempt. -/
structure AttemptEnv where
  run : RunResult
  install : InstallEnv
deriving DecidableEq

/-- Terminal classification of the loop, following the spec's taxonomy;
`ScriptNotFound` and `OperatorInterrupt` are the two extra `sys.exit`
paths of the source. -/
inductive Terminal where
  | Success
  | TimeoutAssumedSuccess
  | UnrecognizedFailure
  | InstallDeclined
  | InstallFailed
  | OperatorInterrupt
  | ScriptNotFound
  | RetryLimitExceeded
deriving DecidableEq

/-- The loop's mutable state: the attempt counter and the accumulated
`installed_packages` list. -/
structure LoopState where
  retries : Nat
  installed_packages : List (List Char)
deriving DecidableEq

/-- How `resolve_dependencies` ends.  `report` means control reached the
final summary block (lines 150-157), carrying the `print()` payloads of
the terminal branch; `exitNoReport` means `sys.exit(1)` fired before the
summary. -/
inductive LoopOutcome where
  | report (reason : Terminal) (st : LoopState) (printed : List (List Char))
  | exitNoReport (reason : Terminal) (st : LoopState)
deriving DecidableEq

/-- The `print(f"STDOUT...")` payload of lines 118 and 124. -/
def frameStdout (s : List Char) : List Char :=
  "\n--- STDOUT ---\n".toList ++ s

/-- The `print(f"STDERR...")` payload of lines 119 and 126. -/
def frameStderr (s : List Char) : List Char :=
  "\n--- STDERR ---\n".toList ++ s

/-- Terminal reason of the abort after a non-successful install (lines
109-112): declined and interrupted are distinguished from other install
failures only in the diagnostic, all reach `sys.exit(1)`. -/
def abortReason : InstallResult → Terminal
  | InstallResult.declined => Terminal.InstallDeclined
  | InstallResult.interrupted => Terminal.OperatorInterrupt
  | _ => Terminal.InstallFailed

/-- The retry ceiling of line 77. -/
def max_retries : Nat := 20

/-- One-to-one embedding of the `while retries < max_retries` loop
(lines 80-148), indexed by the remaining fuel `max_retries - retries`.
Fuel 0 is the loop condition failing, which falls through to the
retry-limit warning and the summary.  Otherwise `retries += 1`, the
script runs (`env (retries + 1)`), and the branches of lines 94-143
follow the source. -/
def resolveGo (env : Nat → AttemptEnv) (assume_yes : Bool)
    (python_executable : List Char) :
    Nat → List (List Char) → Nat → LoopOutcome
  | retries, installed_packages, 0 =>
    LoopOutcome.report Terminal.RetryLimitExceeded ⟨retries, installed_packages⟩ []
  | retries, installed_packages, fuel + 1 =>
    match (env (retries + 1)).run with
    | RunResult.fileNotFound =>
      LoopOutcome.exitNoReport Terminal.ScriptNotFound ⟨retries + 1, installed_packages⟩
    | RunResult.timedOut =>
      LoopOutcome.report Terminal.TimeoutAssumedSuccess ⟨retries + 1, installed_packages⟩ []
    | RunResult.finished rc out err =>
      if rc ≠ 0 ∧ err ≠ [] then
        if pyTruthy (parse_missing_module err) then
          let package_to_install := (parse_missing_module err).getD []
          let res := install_package package_to_install python_executable assume_yes
            (env (retries + 1)).install
          if res.installed then
            resolveGo env assume_yes python_executable (retries + 1)
              (installed_packages ++ [package_to_install]) fuel
          else
            LoopOutcome.exitNoReport (abortReason res) ⟨retries + 1, installed_packages⟩
        else
          LoopOutcome.report Terminal.UnrecognizedFailure ⟨retries + 1, installed_packages⟩
            [frameStdout out, frameStderr err]
      else
        LoopOutcome.report Terminal.Success ⟨retries + 1, installed_packages⟩
          (frameStdout out :: (if err ≠ [] then [frameStderr err] else []))

/-- Embedding of `resolve_dependencies` (lines 72-157): state starts at
`retries = 0`, `installed_packages = []`, with the full fuel budget. -/
def resolve_dependencies (env : Nat → AttemptEnv) (assume_yes : Bool)
    (python_executable : List Char) : LoopOutcome :=
  resolveGo env assume_yes python_executable 0 [] max_retries

/-- Terminal reason of an outcome. -/
def LoopOutcome.reason : LoopOutcome → Terminal
  | LoopOutcome.report r _ _ => r
  | LoopOutcome.exitNoReport r _ => r

/-- Final value of the attempt counter. -/
def LoopOutcome.retries : LoopOutcome → Nat
  | LoopOutcome.report _ st _ => st.retries
  | LoopOutcome.exitNoReport _ st => st.retries

/-- Final `installed_packages` list. -/
def LoopOutcome.installed_packages : LoopOutcome → List (List Char)
  | LoopOutcome.report _ st _ => st.installed_packages
  | LoopOutcome.exitNoReport _ st => st.installed_packages

/-- Whether the final summary block was printed before control returned. -/
def reportPrinted : LoopOutcome → Bool
  | LoopOutcome.report _ _ _ => true
  | LoopOutcome.exitNoReport _ _ => false

/-- The terminal reasons whose paths fall through to the summary block. -/
def summaryReasons : List Terminal :=
  [Terminal.Success, Terminal.TimeoutAssumedSuccess,
   Terminal.UnrecognizedFailure, Terminal.RetryLimitExceeded]

/-- An attempt on which the loop continues: the run finished with nonzero
exit and non-empty stderr, the parser's result is truthy, and the install
succeeded. -/
def attemptContinues (assume_yes : Bool) (python_executable : List Char)
    (a : AttemptEnv) : Prop :=
  ∃ rc out err, a.run = RunResult.finished rc out err ∧ rc ≠ 0 ∧ err ≠ [] ∧
    pyTruthy (parse_missing_module err) = true ∧
    (install_package ((parse_missing_module err).getD []) python_executable assume_yes
      a.install).installed = true

/-- An attempt with a recognized missing-module signature whose install
attempt fails (pip exits nonzero). -/
def attemptInstallFails (assume_yes : Bool) (python_executable : List Char)
    (a : AttemptEnv) : Prop :=
  ∃ rc out err prc perr, a.run = RunResult.finished rc out err ∧ rc ≠ 0 ∧ err ≠ [] ∧
    pyTruthy (parse_missing_module err) = true ∧
    install_package ((parse_missing_module err).getD []) python_executable assume_yes
      a.install = InstallResult.pipFailed prc perr

/-- Declarative reading of a quoted template: the text contains the
literal head, then a quote-free capture, then the closing quote. -/
def QuotedCapture (lit : List Char) (q : Char) (text c : List Char) : Prop :=
  q ∉ c ∧ ∃ pre post, text = pre ++ (lit ++ (c ++ q :: post))

/-- Declarative reading of the unquoted template: the text contains the
literal head, then a non-empty maximal run of non-whitespace characters. -/
def UnquotedCapture (text c : List Char) : Prop :=
  c ≠ [] ∧ (∀ ch ∈ c, notSpace ch = true) ∧
  ∃ pre post, text = pre ++ (litImportError ++ (c ++ post)) ∧
    (post = [] ∨ ∃ d rest, post = d :: rest ∧ notSpace d = false)

/-- Concrete stderr text `No module named` quote `x` quote, recognized by
the first template with capture `x`. -/
def errX : List Char := litNoModuleSQ ++ "x".toList ++ [squote]

/-- Install oracle where the operator presses Enter and pip exits 0. -/
def okInstall : InstallEnv := ⟨PromptEvent.response [], PipResult.exited 0 [] []⟩

/-- Install oracle where pip exits 1. -/
def failInstall : InstallEnv :=
  ⟨PromptEvent.response [], PipResult.exited 1 [] "boom".toList⟩

/-- Attempt oracle: every attempt reports a recognized missing module and
its install succeeds. -/
def envAllContinue : Nat → AttemptEnv :=
  fun _ => ⟨RunResult.finished 1 [] errX, okInstall⟩

/-- Attempt oracle: every attempt reports a recognized missing module and
its install fails. -/
def envAllInstallFail : Nat → AttemptEnv :=
  fun _ => ⟨RunResult.finished 1 [] errX, failInstall⟩

/-- Attempt oracle: a recognized missing module, but the operator answers
`n` at the prompt. -/
def envDecline : Nat → AttemptEnv :=
  fun _ => ⟨RunResult.finished 1 [] errX,
    ⟨PromptEvent.response "n".toList, PipResult.exited 0 [] []⟩⟩

/-- Attempt oracle: attempt 1 installs a missing module, attempt 2 exits
cleanly. -/
def envInstallThenClean : Nat → AttemptEnv :=
  fun i => if i = 1 then ⟨RunResult.finished 1 [] errX, okInstall⟩
    else ⟨RunResult.finished 0 [] [], okInstall⟩

/-- Attempt oracle: every attempt times out. -/
def envTimeout : Nat → AttemptEnv :=
  fun _ => ⟨RunResult.timedOut, okInstall⟩

/-- Attempt oracle: every attempt fails with an unrecognized diagnostic. -/
def envSyntaxError : Nat → AttemptEnv :=
  fun _ => ⟨RunResult.finished 1 "some out".toList "SyntaxError: invalid syntax".toList,
    okInstall⟩

/-- Attempt oracle: every attempt exits nonzero with empty stderr. -/
def envSilentCrash : Nat → AttemptEnv :=
  fun _ => ⟨RunResult.finished 3 "out".toList [], okInstall⟩

/-- Input text on which the first template captures the empty string:
`No module named` followed by two adjacent single quotes. -/
def emptyQuotesText : List Char := litNoModuleSQ ++ [squote]

/-- Witness text for the declarative template reading: the first template
with capture `x`. -/
def textQuotedX : List Char := [] ++ (litNoModuleSQ ++ ("x".toList ++ squote :: []))

/-! Characterization lemmas for the parser embedding. -/

theorem stripLit_eq_some : ∀ (lit s t : List Char),
    stripLit lit s = some t ↔ s = lit ++ t := by
  intro lit
  induction lit with
  | nil =>
    intro s t
    simp [stripLit]
  | cons a as ih =>
    intro s t
    cases s with
    | nil => simp [stripLit]
    | cons b bs =>
      by_cases hab : a = b
      · subst hab
        simp [stripLit, ih]
      · simp only [stripLit, if_neg hab, List.cons_append]
        constructor
        · intro h
          exact Option.noConfusion h
        · intro h
          exact absurd (List.cons_eq_cons.mp h).1.symm hab

theorem takeUntil_eq_some (q : Char) : ∀ (s c : List Char),
    takeUntil q s = some c ↔ (q ∉ c ∧ ∃ post, s = c ++ q :: post) := by
  intro s
  induction s with
  | nil =>
    intro c
    constructor
    · intro h
      exact Option.noConfusion h
    · rintro ⟨hq, post, hp⟩
      exact absurd hp.symm (by simp)
  | cons a as ih =>
    intro c
    by_cases ha : a = q
    · subst ha
      simp [takeUntil]
      constructor
      · rintro rfl
        exact ⟨by simp, as, rfl⟩
      · rintro ⟨hq, post, hp⟩
        cases c with
        | nil => rfl
        | cons b bs =>
          simp at hp
          exact absurd (hp.1 ▸ List.mem_cons_self b bs) hq
    · rw [takeUntil, if_neg ha]
      constructor
      · intro h
        obtain ⟨c0, hc0, rfl⟩ := Option.map_eq_some.mp h
        obtain ⟨hq, post, hp⟩ := (ih c0).mp hc0
        refine ⟨by simp [hq, Ne.symm ha], post, by simp [hp]⟩
      · rintro ⟨hq, post, hp⟩
        cases c with
        | nil =>
          simp at hp
          exact absurd hp.1 ha
        | cons b bs =>
          simp at hp
          obtain ⟨rfl, hp⟩ := hp
          have : takeUntil q as = some bs :=
            (ih bs).mpr ⟨fun hm => hq (List.mem_cons_of_mem _ hm), post, hp⟩
          simp [this]

theorem matchQuotedAt_eq_some (lit : List Char) (q : Char) (s c : List Char) :
    matchQuotedAt lit q s = some c ↔
      (q ∉ c ∧ ∃ post, s = lit ++ (c ++ q :: post)) := by
  unfold matchQuotedAt
  cases hs : stripLit lit s with
  | some rest =>
    have hr := (stripLit_eq_some lit s rest).mp hs
    subst hr
    rw [takeUntil_eq_some]
    constructor
    · rintro ⟨hq, post, hp⟩
      exact ⟨hq, post, by simp [hp]⟩
    · rintro ⟨hq, post, hp⟩
      exact ⟨hq, post, by simpa using hp⟩
  | none =>
    simp
    rintro hq post hp
    have : stripLit lit s = some (c ++ q :: post) :=
      (stripLit_eq_some lit s _).mpr hp
    simp [hs] at this

theorem takeWhile_decomp (p : Char → Bool) : ∀ (r : List Char),
    (∀ ch ∈ r.takeWhile p, p ch = true) ∧
    ∃ post, r = r.takeWhile p ++ post ∧
      (post = [] ∨ ∃ d rest, post = d :: rest ∧ p d = false) := by
  intro r
  induction r with
  | nil => exact ⟨by simp, [], by simp⟩
  | cons a as ih =>
    by_cases ha : p a
    · obtain ⟨hmem, post, hpost, hhead⟩ := ih
      refine ⟨?_, post, ?_, hhead⟩
      · intro ch hch
        rw [List.takeWhile_cons, if_pos ha] at hch
        rcases List.mem_cons.mp hch with rfl | h
        · exact ha
        · exact hmem ch h
      · rw [List.takeWhile_cons, if_pos ha, List.cons_append, ← hpost]
    · refine ⟨?_, a :: as, ?_, Or.inr ⟨a, as, rfl, by simpa using ha⟩⟩
      · intro ch hch
        rw [List.takeWhile_cons, if_neg ha] at hch
        simp at hch
      · rw [List.takeWhile_cons, if_neg ha, List.nil_append]

theorem takeWhile_of_decomp (p : Char → Bool) : ∀ (c post : List Char),
    (∀ ch ∈ c, p ch = true) →
    (post = [] ∨ ∃ d rest, post = d :: rest ∧ p d = false) →
    (c ++ post).takeWhile p = c := by
  intro c
  induction c with
  | nil =>
    rintro post - (rfl | ⟨d, rest, rfl, hd⟩)
    · simp
    · simp [List.takeWhile_cons, hd]
  | cons a c' ih =>
    intro post hmem hpost
    have ha : p a = true := hmem a (List.mem_cons_self a c')
    rw [List.cons_append, List.takeWhile_cons, if_pos ha,
      ih post (fun ch hch => hmem ch (List.mem_cons_of_mem _ hch)) hpost]

theorem matchUnquotedAt_eq_some (s c : List Char) :
    matchUnquotedAt s = some c ↔
      (c ≠ [] ∧ (∀ ch ∈ c, notSpace ch = true) ∧
       ∃ post, s = litImportError ++ (c ++ post) ∧
         (post = [] ∨ ∃ d rest, post = d :: rest ∧ notSpace d = false)) := by
  unfold matchUnquotedAt
  cases hs : stripLit litImportError s with
  | some rest =>
    have hr := (stripLit_eq_some _ s rest).mp hs
    subst hr
    constructor
    · intro h
      by_cases hcap : (rest.takeWhile notSpace).isEmpty
      · simp [hcap] at h
      · simp only [hcap, if_neg, Bool.false_eq_true, not_false_iff, if_false] at h
        obtain rfl := Option.some.inj h
        obtain ⟨hmem, post, hpost, hhead⟩ := takeWhile_decomp notSpace rest
        refine ⟨by simpa using hcap, hmem, post, by rw [← hpost], hhead⟩
    · rintro ⟨hc, hmem, post, heq, hhead⟩
      have heq2 : rest = c ++ post := List.append_cancel_left heq
      subst heq2
      simp [takeWhile_of_decomp notSpace c post hmem hhead, List.isEmpty_iff, hc]
  | none =>
    constructor
    · intro h
      exact Option.noConfusion h
    · rintro ⟨hc, hmem, post, hp, hhead⟩
      have h2 : stripLit litImportError s = some (c ++ post) :=
        (stripLit_eq_some _ s _).mpr hp
      rw [hs] at h2
      exact Option.noConfusion h2

theorem reSearch_sound (f : List Char → Option (List Char)) : ∀ (s c : List Char),
    reSearch f s = some c → ∃ pre post, s = pre ++ post ∧ f post = some c := by
  intro s
  induction s with
  | nil =>
    intro c h
    exact ⟨[], [], rfl, h⟩
  | cons a as ih =>
    intro c h
    rw [reSearch] at h
    cases hf : f (a :: as) with
    | some r =>
      rw [hf] at h
      exact ⟨[], a :: as, rfl, hf.trans h⟩
    | none =>
      rw [hf] at h
      obtain ⟨pre, post, rfl, hfp⟩ := ih c h
      exact ⟨a :: pre, post, rfl, hfp⟩

theorem reSearch_complete (f : List Char → Option (List Char)) :
    ∀ (pre post c : List Char), f post = some c →
      ∃ r, reSearch f (pre ++ post) = some r := by
  intro pre
  induction pre with
  | nil =>
    intro post c h
    cases post with
    | nil => exact ⟨c, h⟩
    | cons a as =>
      rw [List.nil_append, reSearch, h]
      exact ⟨c, rfl⟩
  | cons a pre' ih =>
    intro post c h
    rw [List.cons_append, reSearch]
    cases hf : f (a :: (pre' ++ post)) with
    | some r => exact ⟨r, rfl⟩
    | none => exact ih post c h

theorem quotedSearch_sound (lit : List Char) (q : Char) (text c : List Char) :
    reSearch (matchQuotedAt lit q) text = some c → QuotedCapture lit q text c := by
  intro h
  obtain ⟨pre, post, rfl, hm⟩ := reSearch_sound _ text c h
  obtain ⟨hq, post2, hp⟩ := (matchQuotedAt_eq_some lit q post c).mp hm
  exact ⟨hq, pre, post2, by rw [hp]⟩

theorem quotedSearch_complete (lit : List Char) (q : Char) (text c : List Char) :
    QuotedCapture lit q text c → ∃ r, reSearch (matchQuotedAt lit q) text = some r := by
  rintro ⟨hq, pre, post, rfl⟩
  exact reSearch_complete _ pre _ c
    ((matchQuotedAt_eq_some lit q _ c).mpr ⟨hq, post, rfl⟩)

theorem unquotedSearch_sound (text c : List Char) :
    reSearch matchUnquotedAt text = some c → UnquotedCapture text c := by
  intro h
  obtain ⟨pre, post, rfl, hm⟩ := reSearch_sound _ text c h
  obtain ⟨hc, hmem, post2, hp, hhead⟩ := (matchUnquotedAt_eq_some post c).mp hm
  exact ⟨hc, hmem, pre, post2, by rw [hp], hhead⟩

theorem unquotedSearch_complete (text c : List Char) :
    UnquotedCapture text c → ∃ r, reSearch matchUnquotedAt text = some r := by
  rintro ⟨hc, hmem, pre, post, rfl, hhead⟩
  exact reSearch_complete _ pre _ c
    ((matchUnquotedAt_eq_some _ c).mpr ⟨hc, hmem, post, rfl, hhead⟩)


/-! Lemmas about the resolution loop. -/

theorem pyTruthy_getD_ne (o : Option (List Char)) (h : pyTruthy o = true) :
    o.getD [] ≠ [] := by
  cases o with
  | none => simp [pyTruthy] at h
  | some s =>
    simp only [pyTruthy, Bool.not_eq_true'] at h
    simpa [List.isEmpty_iff] using h

theorem abortReason_not_summary (r : InstallResult) :
    abortReason r ∉ summaryReasons := by
  cases r <;> simp [abortReason, summaryReasons]

theorem resolveGo_retries_le (env : Nat → AttemptEnv) (ay : Bool) (pyexe : List Char) :
    ∀ (fuel retries : Nat) (pkgs : List (List Char)),
      (resolveGo env ay pyexe retries pkgs fuel).retries ≤ retries + fuel := by
  intro fuel
  induction fuel with
  | zero =>
    intro retries pkgs
    simp [resolveGo, LoopOutcome.retries]
  | succ fuel ih =>
    intro retries pkgs
    cases hrun : (env (retries + 1)).run with
    | fileNotFound =>
      simp only [resolveGo, hrun, LoopOutcome.retries]
      omega
    | timedOut =>
      simp only [resolveGo, hrun, LoopOutcome.retries]
      omega
    | finished rc out err =>
      simp only [resolveGo, hrun]
      by_cases hc1 : rc ≠ 0 ∧ err ≠ []
      · rw [if_pos hc1]
        by_cases hc2 : pyTruthy (parse_missing_module err) = true
        · rw [if_pos hc2]
          by_cases hc3 : (install_package ((parse_missing_module err).getD []) pyexe ay
              (env (retries + 1)).install).installed = true
          · rw [if_pos hc3]
            have hrec := ih (retries + 1) (pkgs ++ [(parse_missing_module err).getD []])
            omega
          · rw [if_neg hc3]
            simp only [LoopOutcome.retries]
            omega
        · rw [if_neg hc2]
          simp only [LoopOutcome.retries]
          omega
      · rw [if_neg hc1]
        simp only [LoopOutcome.retries]
        omega

theorem resolveGo_all_continue (env : Nat → AttemptEnv) (ay : Bool) (pyexe : List Char) :
    ∀ (fuel retries : Nat) (pkgs : List (List Char)),
      (∀ i, retries < i → i ≤ retries + fuel → attemptContinues ay pyexe (env i)) →
      (resolveGo env ay pyexe retries pkgs fuel).reason = Terminal.RetryLimitExceeded ∧
      (resolveGo env ay pyexe retries pkgs fuel).retries = retries + fuel := by
  intro fuel
  induction fuel with
  | zero =>
    intro retries pkgs h
    simp [resolveGo, LoopOutcome.reason, LoopOutcome.retries]
  | succ fuel ih =>
    intro retries pkgs h
    obtain ⟨rc, out, err, hrun, hrc, herr, htru, hinst⟩ :=
      h (retries + 1) (by omega) (by omega)
    have hrec := ih (retries + 1) (pkgs ++ [(parse_missing_module err).getD []])
      (fun i h1 h2 => h i (by omega) (by omega))
    simp only [resolveGo, hrun]
    rw [if_pos ⟨hrc, herr⟩, if_pos htru, if_pos hinst]
    refine ⟨hrec.1, ?_⟩
    have h2 := hrec.2
    omega

theorem resolveGo_reportPrinted (env : Nat → AttemptEnv) (ay : Bool) (pyexe : List Char) :
    ∀ (fuel retries : Nat) (pkgs : List (List Char)),
      reportPrinted (resolveGo env ay pyexe retries pkgs fuel) = true ↔
        (resolveGo env ay pyexe retries pkgs fuel).reason ∈ summaryReasons := by
  intro fuel
  induction fuel with
  | zero =>
    intro retries pkgs
    simp [resolveGo, reportPrinted, LoopOutcome.reason, summaryReasons]
  | succ fuel ih =>
    intro retries pkgs
    cases hrun : (env (retries + 1)).run with
    | fileNotFound =>
      simp [resolveGo, hrun, reportPrinted, LoopOutcome.reason, summaryReasons]
    | timedOut =>
      simp [resolveGo, hrun, reportPrinted, LoopOutcome.reason, summaryReasons]
    | finished rc out err =>
      simp only [resolveGo, hrun]
      by_cases hc1 : rc ≠ 0 ∧ err ≠ []
      · rw [if_pos hc1]
        by_cases hc2 : pyTruthy (parse_missing_module err) = true
        · rw [if_pos hc2]
          by_cases hc3 : (install_package ((parse_missing_module err).getD []) pyexe ay
              (env (retries + 1)).install).installed = true
          · rw [if_pos hc3]
            exact ih (retries + 1) (pkgs ++ [(parse_missing_module err).getD []])
          · rw [if_neg hc3]
            simp only [reportPrinted, LoopOutcome.reason, Bool.false_eq_true, false_iff]
            exact abortReason_not_summary _
        · rw [if_neg hc2]
          simp [reportPrinted, LoopOutcome.reason, summaryReasons]
      · rw [if_neg hc1]
        simp [reportPrinted, LoopOutcome.reason, summaryReasons]

theorem resolveGo_pkgs_ne (env : Nat → AttemptEnv) (ay : Bool) (pyexe : List Char) :
    ∀ (fuel retries : Nat) (pkgs : List (List Char)),
      (∀ p ∈ pkgs, p ≠ []) →
      ∀ p ∈ (resolveGo env ay pyexe retries pkgs fuel).installed_packages, p ≠ [] := by
  intro fuel
  induction fuel with
  | zero =>
    intro retries pkgs h
    simpa [resolveGo, LoopOutcome.installed_packages] using h
  | succ fuel ih =>
    intro retries pkgs h
    cases hrun : (env (retries + 1)).run with
    | fileNotFound =>
      simpa [resolveGo, hrun, LoopOutcome.installed_packages] using h
    | timedOut =>
      simpa [resolveGo, hrun, LoopOutcome.installed_packages] using h
    | finished rc out err =>
      simp only [resolveGo, hrun]
      by_cases hc1 : rc ≠ 0 ∧ err ≠ []
      · rw [if_pos hc1]
        by_cases hc2 : pyTruthy (parse_missing_module err) = true
        · rw [if_pos hc2]
          by_cases hc3 : (install_package ((parse_missing_module err).getD []) pyexe ay
              (env (retries + 1)).install).installed = true
          · rw [if_pos hc3]
            refine ih (retries + 1) (pkgs ++ [(parse_missing_module err).getD []]) ?_
            intro p hp
            rcases List.mem_append.mp hp with hp | hp
            · exact h p hp
            · rcases List.mem_singleton.mp hp with rfl
              exact pyTruthy_getD_ne _ hc2
          · rw [if_neg hc3]
            simpa [LoopOutcome.installed_packages] using h
        · rw [if_neg hc2]
          simpa [LoopOutcome.installed_packages] using h
      · rw [if_neg hc1]
        simpa [LoopOutcome.installed_packages] using h

theorem resolveGo_congr (env env' : Nat → AttemptEnv) (ay : Bool) (pyexe : List Char) :
    ∀ (fuel retries : Nat) (pkgs : List (List Char)),
      (∀ i, retries < i → i ≤ retries + fuel → env i = env' i) →
      resolveGo env ay pyexe retries pkgs fuel =
        resolveGo env' ay pyexe retries pkgs fuel := by
  intro fuel
  induction fuel with
  | zero =>
    intro retries pkgs h
    simp [resolveGo]
  | succ fuel ih =>
    intro retries pkgs h
    have he : env' (retries + 1) = env (retries + 1) := (h _ (by omega) (by omega)).symm
    cases hrun : (env (retries + 1)).run with
    | fileNotFound =>
      simp [resolveGo, hrun, he]
    | timedOut =>
      simp [resolveGo, hrun, he]
    | finished rc out err =>
      simp only [resolveGo, hrun, he]
      by_cases hc1 : rc ≠ 0 ∧ err ≠ []
      · rw [if_pos hc1, if_pos hc1]
        by_cases hc2 : pyTruthy (parse_missing_module err) = true
        · rw [if_pos hc2, if_pos hc2]
          by_cases hc3 : (install_package ((parse_missing_module err).getD []) pyexe ay
              (env (retries + 1)).install).installed = true
          · rw [if_pos hc3, if_pos hc3]
            exact ih (retries + 1) (pkgs ++ [(parse_missing_module err).getD []])
              (fun i h1 h2 => h i (by omega) (by omega))
          · rw [if_neg hc3, if_neg hc3]
        · rw [if_neg hc2, if_neg hc2]
      · rw [if_neg hc1, if_neg hc1]

theorem resolveGo_install_fails (env : Nat → AttemptEnv) (ay : Bool) (pyexe : List Char)
    (retries fuel : Nat) (pkgs : List (List Char))
    (h : attemptInstallFails ay pyexe (env (retries + 1))) :
    resolveGo env ay pyexe retries pkgs (fuel + 1) =
      LoopOutcome.exitNoReport Terminal.InstallFailed ⟨retries + 1, pkgs⟩ := by
  obtain ⟨rc, out, err, prc, perr, hrun, hrc, herr, htru, hinst⟩ := h
  simp only [resolveGo, hrun]
  rw [if_pos ⟨hrc, herr⟩, if_pos htru, hinst]
  simp [InstallResult.installed, abortReason]

/-! Claim theorems. -/

/-- C1: over any run of the resolution loop, the attempt counter
advances by exactly one per iteration and its final value never exceeds
20; when all 20 attempts pass without a success or abort terminal (every
attempt recognizes a missing module and installs it), the loop halts
with `RetryLimitExceeded` at attempt 20; and the outcome never depends
on what a 21st attempt would have produced. -/
theorem claim_C1_retry_ceiling (env env' : Nat → AttemptEnv) (ay : Bool) (pyexe : List Char) :
    (resolve_dependencies env ay pyexe).retries ≤ max_retries ∧
    (∀ retries pkgs fuel, attemptContinues ay pyexe (env (retries + 1)) →
      ∃ p, resolveGo env ay pyexe retries pkgs (fuel + 1) =
        resolveGo env ay pyexe (retries + 1) (pkgs ++ [p]) fuel) ∧
    ((∀ i, 1 ≤ i → i ≤ max_retries → attemptContinues ay pyexe (env i)) →
      (resolve_dependencies env ay pyexe).reason = Terminal.RetryLimitExceeded ∧
      (resolve_dependencies env ay pyexe).retries = max_retries) ∧
    ((∀ i, 1 ≤ i → i ≤ max_retries → env i = env' i) →
      resolve_dependencies env ay pyexe = resolve_dependencies env' ay pyexe) := by
  refine ⟨?_, ?_, ?_, ?_⟩
  · simpa [resolve_dependencies] using resolveGo_retries_le env ay pyexe max_retries 0 []
  · rintro retries pkgs fuel ⟨rc, out, err, hrun, hrc, herr, htru, hinst⟩
    refine ⟨(parse_missing_module err).getD [], ?_⟩
    simp only [resolveGo, hrun]
    rw [if_pos ⟨hrc, herr⟩, if_pos htru, if_pos hinst]
  · intro h
    have hall := resolveGo_all_continue env ay pyexe max_retries 0 []
      (fun i h1 h2 => h i (by omega) (by omega))
    simpa [resolve_dependencies] using hall
  · intro h
    exact resolveGo_congr env env' ay pyexe max_retries 0 []
      (fun i h1 h2 => h i (by omega) (by omega))

/-- Witness for C1 at the oracle where every attempt recognizes a
missing module and installs it: the loop ends in `RetryLimitExceeded`
with the counter exactly at 20. -/
theorem claim_C1_retry_ceiling_witness :
    attemptContinues true [] (envAllContinue 1) ∧
    (resolve_dependencies envAllContinue true []).reason = Terminal.RetryLimitExceeded ∧
    (resolve_dependencies envAllContinue true []).retries = max_retries := by
  have hc : ∀ i, 1 ≤ i → i ≤ max_retries → attemptContinues true [] (envAllContinue i) := by
    intro i h1 h2
    refine ⟨1, [], errX, rfl, by decide, by decide, by decide, ?_⟩
    show (install_package ((parse_missing_module errX).getD []) [] true
      okInstall).installed = true
    decide
  exact ⟨hc 1 (by decide) (by decide),
    (claim_C1_retry_ceiling envAllContinue envAllContinue true []).2.2.1 hc⟩

/-- Counterexample to C2: with every attempt reporting a recognized
missing-module signature and every install attempt failing (pip exits
1), the loop terminates at attempt 1 with `InstallFailed` (`sys.exit(1)`
on the first failed install), not with `RetryLimitExceeded` at attempt
20 as the claim states. -/
theorem claim_C2_counterexample :
    pyTruthy (parse_missing_module errX) = true ∧
    (install_package ((parse_missing_module errX).getD []) [] true
      failInstall).installed = false ∧
    resolve_dependencies envAllInstallFail true [] =
      LoopOutcome.exitNoReport Terminal.InstallFailed ⟨1, []⟩ ∧
    (resolve_dependencies envAllInstallFail true []).reason ≠ Terminal.RetryLimitExceeded := by
  decide

/-- C2 as amended: when the first attempt reports a recognized
missing-module signature and its install attempt fails, the loop aborts
immediately with `InstallFailed` at attempt 1 — so under the claim's
hypothesis (every install fails) the terminal outcome is `InstallFailed`
at attempt 1, never `RetryLimitExceeded` at attempt 20. -/
theorem claim_C2_amended (env : Nat → AttemptEnv) (ay : Bool) (pyexe : List Char)
    (h : attemptInstallFails ay pyexe (env 1)) :
    resolve_dependencies env ay pyexe =
      LoopOutcome.exitNoReport Terminal.InstallFailed ⟨1, []⟩ := by
  have hgo := resolveGo_install_fails env ay pyexe 0 19 [] (by exact h)
  simpa [resolve_dependencies, max_retries] using hgo

/-- Witness for the amended C2 at the all-installs-fail oracle. -/
theorem claim_C2_amended_witness :
    attemptInstallFails true [] (envAllInstallFail 1) ∧
    resolve_dependencies envAllInstallFail true [] =
      LoopOutcome.exitNoReport Terminal.InstallFailed ⟨1, []⟩ := by
  have h : attemptInstallFails true [] (envAllInstallFail 1) :=
    ⟨1, [], errX, 1, "boom".toList, rfl, by decide, by decide, by decide, by decide⟩
  exact ⟨h, claim_C2_amended envAllInstallFail true [] h⟩

/-- Counterexample to C3: on the operator-declines path (terminal reason
`InstallDeclined`), the process exits via `sys.exit(1)` before the final
summary block, so this terminal path skips the report. -/
theorem claim_C3_counterexample :
    resolve_dependencies envDecline false [] =
      LoopOutcome.exitNoReport Terminal.InstallDeclined ⟨1, []⟩ ∧
    reportPrinted (resolve_dependencies envDecline false []) = false := by
  decide

/-- C3 as amended: the final summary report (which carries the full
`installed_packages` sequence) is produced exactly for the terminal
reasons Success, TimeoutAssumedSuccess, UnrecognizedFailure and
RetryLimitExceeded; the InstallDeclined, InstallFailed, operator
interrupt and missing-script paths exit the process before the report. -/
theorem claim_C3_amended (env : Nat → AttemptEnv) (ay : Bool) (pyexe : List Char) :
    reportPrinted (resolve_dependencies env ay pyexe) = true ↔
      (resolve_dependencies env ay pyexe).reason ∈ summaryReasons := by
  exact resolveGo_reportPrinted env ay pyexe max_retries 0 []

/-- C4: the parser returns a capture of the earliest-listed matching
template — the single-quoted form wins over the double-quoted form,
which wins over the unquoted ImportError form — and returns `none`
exactly when no template matches anywhere in the text. -/
theorem claim_C4_template_priority (text : List Char) :
    ((∃ c, QuotedCapture litNoModuleSQ squote text c) →
      ∃ c, parse_missing_module text = some c ∧ QuotedCapture litNoModuleSQ squote text c) ∧
    (¬(∃ c, QuotedCapture litNoModuleSQ squote text c) →
      (∃ c, QuotedCapture litNoModuleDQ dquote text c) →
      ∃ c, parse_missing_module text = some c ∧ QuotedCapture litNoModuleDQ dquote text c) ∧
    (¬(∃ c, QuotedCapture litNoModuleSQ squote text c) →
      ¬(∃ c, QuotedCapture litNoModuleDQ dquote text c) →
      (∃ c, UnquotedCapture text c) →
      ∃ c, parse_missing_module text = some c ∧ UnquotedCapture text c) ∧
    (parse_missing_module text = none ↔
      ¬(∃ c, QuotedCapture litNoModuleSQ squote text c) ∧
      ¬(∃ c, QuotedCapture litNoModuleDQ dquote text c) ∧
      ¬(∃ c, UnquotedCapture text c)) := by
  have hnone1 : ¬(∃ c, QuotedCapture litNoModuleSQ squote text c) →
      reSearch (matchQuotedAt litNoModuleSQ squote) text = none := by
    intro hno
    cases h : reSearch (matchQuotedAt litNoModuleSQ squote) text with
    | some r => exact absurd ⟨r, quotedSearch_sound _ _ _ _ h⟩ hno
    | none => rfl
  have hnone2 : ¬(∃ c, QuotedCapture litNoModuleDQ dquote text c) →
      reSearch (matchQuotedAt litNoModuleDQ dquote) text = none := by
    intro hno
    cases h : reSearch (matchQuotedAt litNoModuleDQ dquote) text with
    | some r => exact absurd ⟨r, quotedSearch_sound _ _ _ _ h⟩ hno
    | none => rfl
  have hnone3 : ¬(∃ c, UnquotedCapture text c) →
      reSearch matchUnquotedAt text = none := by
    intro hno
    cases h : reSearch matchUnquotedAt text with
    | some r => exact absurd ⟨r, unquotedSearch_sound _ _ h⟩ hno
    | none => rfl
  refine ⟨?_, ?_, ?_, ?_⟩
  · rintro ⟨c, hc⟩
    obtain ⟨r, hr⟩ := quotedSearch_complete _ _ text c hc
    exact ⟨r, by simp [parse_missing_module, hr], quotedSearch_sound _ _ text r hr⟩
  · rintro hno1 ⟨c, hc⟩
    obtain ⟨r, hr⟩ := quotedSearch_complete _ _ text c hc
    exact ⟨r, by simp [parse_missing_module, hnone1 hno1, hr],
      quotedSearch_sound _ _ text r hr⟩
  · rintro hno1 hno2 ⟨c, hc⟩
    obtain ⟨r, hr⟩ := unquotedSearch_complete text c hc
    exact ⟨r, by simp [parse_missing_module, hnone1 hno1, hnone2 hno2, hr],
      unquotedSearch_sound text r hr⟩
  · constructor
    · intro hp
      have h1 : reSearch (matchQuotedAt litNoModuleSQ squote) text = none := by
        cases h : reSearch (matchQuotedAt litNoModuleSQ squote) text with
        | some r => simp [parse_missing_module, h] at hp
        | none => rfl
      have h2 : reSearch (matchQuotedAt litNoModuleDQ dquote) text = none := by
        cases h : reSearch (matchQuotedAt litNoModuleDQ dquote) text with
        | some r => simp [parse_missing_module, h1, h] at hp
        | none => rfl
      have h3 : reSearch matchUnquotedAt text = none := by
        cases h : reSearch matchUnquotedAt text with
        | some r => simp [parse_missing_module, h1, h2, h] at hp
        | none => rfl
      refine ⟨?_, ?_, ?_⟩
      · rintro ⟨c, hc⟩
        obtain ⟨r, hr⟩ := quotedSearch_complete _ _ text c hc
        rw [h1] at hr
        exact Option.noConfusion hr
      · rintro ⟨c, hc⟩
        obtain ⟨r, hr⟩ := quotedSearch_complete _ _ text c hc
        rw [h2] at hr
        exact Option.noConfusion hr
      · rintro ⟨c, hc⟩
        obtain ⟨r, hr⟩ := unquotedSearch_complete text c hc
        rw [h3] at hr
        exact Option.noConfusion hr
    · rintro ⟨hno1, hno2, hno3⟩
      simp [parse_missing_module, hnone1 hno1, hnone2 hno2, hnone3 hno3]

/-- Witness for C4 at a text that the single-quoted template matches
with capture `x`. -/
theorem claim_C4_template_priority_witness :
    (∃ c, QuotedCapture litNoModuleSQ squote textQuotedX c) ∧
    (∃ c, parse_missing_module textQuotedX = some c ∧
      QuotedCapture litNoModuleSQ squote textQuotedX c) := by
  have h : ∃ c, QuotedCapture litNoModuleSQ squote textQuotedX c :=
    ⟨"x".toList, by decide, [], [], rfl⟩
  exact ⟨h, (claim_C4_template_priority textQuotedX).1 h⟩

/-- Counterexample to C5: on input `No module named` followed by two
adjacent single quotes, the parser returns the empty string rather than
`None` — the quoted templates capture `[^q]*`, which may be empty. -/
theorem claim_C5_counterexample :
    parse_missing_module emptyQuotesText = some [] := by
  decide

/-- C5 as amended: the parser can return an empty captured name (see
the counterexample), but the loop's truthiness test treats an empty
result like no-match, so every name the loop installs — every member of
the final `installed_packages` — is non-empty. -/
theorem claim_C5_amended (env : Nat → AttemptEnv) (ay : Bool) (pyexe : List Char)
    (p : List Char) (hp : p ∈ (resolve_dependencies env ay pyexe).installed_packages) :
    p ≠ [] := by
  exact resolveGo_pkgs_ne env ay pyexe max_retries 0 [] (by simp) p hp

/-- Witness for the amended C5: a run that installs `x` and then
succeeds; the recorded package is non-empty. -/
theorem claim_C5_amended_witness :
    "x".toList ∈ (resolve_dependencies envInstallThenClean true []).installed_packages ∧
    "x".toList ≠ [] := by
  have hmem : "x".toList ∈
      (resolve_dependencies envInstallThenClean true []).installed_packages := by
    decide
  exact ⟨hmem, claim_C5_amended envInstallThenClean true [] _ hmem⟩

/-- C6: on an iteration whose run times out, the loop terminates
immediately with `TimeoutAssumedSuccess` — the parser and the installer
are not consulted (the outcome is fixed by the run result alone) and the
terminal reason is never `UnrecognizedFailure`. -/
theorem claim_C6_timeout (env : Nat → AttemptEnv) (ay : Bool) (pyexe : List Char)
    (retries fuel : Nat) (pkgs : List (List Char))
    (h : (env (retries + 1)).run = RunResult.timedOut) :
    resolveGo env ay pyexe retries pkgs (fuel + 1) =
      LoopOutcome.report Terminal.TimeoutAssumedSuccess ⟨retries + 1, pkgs⟩ [] ∧
    (resolveGo env ay pyexe retries pkgs (fuel + 1)).reason ≠
      Terminal.UnrecognizedFailure := by
  have heq : resolveGo env ay pyexe retries pkgs (fuel + 1) =
      LoopOutcome.report Terminal.TimeoutAssumedSuccess ⟨retries + 1, pkgs⟩ [] := by
    simp [resolveGo, h]
  refine ⟨heq, ?_⟩
  rw [heq]
  simp [LoopOutcome.reason]

/-- Witness for C6 at an oracle whose first attempt times out. -/
theorem claim_C6_timeout_witness :
    (envTimeout 1).run = RunResult.timedOut ∧
    resolve_dependencies envTimeout true [] =
      LoopOutcome.report Terminal.TimeoutAssumedSuccess ⟨1, []⟩ [] := by
  refine ⟨rfl, ?_⟩
  have h := (claim_C6_timeout envTimeout true [] 0 19 [] rfl).1
  simpa [resolve_dependencies, max_retries] using h

/-- C7: on an attempt where the run finished with nonzero exit and
non-empty stderr and the parser returns `none`, the loop terminates on
that attempt with `UnrecognizedFailure`, without calling the installer
(the outcome below does not depend on the install oracle), and the
printed payloads carry the captured stdout and stderr verbatim. -/
theorem claim_C7_unrecognized (env : Nat → AttemptEnv) (ay : Bool) (pyexe : List Char)
    (retries fuel : Nat) (pkgs : List (List Char)) (rc : Int) (out err : List Char)
    (hrun : (env (retries + 1)).run = RunResult.finished rc out err)
    (hrc : rc ≠ 0) (herr : err ≠ [])
    (hparse : parse_missing_module err = none) :
    resolveGo env ay pyexe retries pkgs (fuel + 1) =
      LoopOutcome.report Terminal.UnrecognizedFailure ⟨retries + 1, pkgs⟩
        [frameStdout out, frameStderr err] := by
  simp [resolveGo, hrun, hrc, herr, hparse, pyTruthy]

/-- Witness for C7 at an oracle whose attempts fail with a syntax
error: no template matches and the loop surfaces both streams. -/
theorem claim_C7_unrecognized_witness :
    parse_missing_module "SyntaxError: invalid syntax".toList = none ∧
    resolve_dependencies envSyntaxError true [] =
      LoopOutcome.report Terminal.UnrecognizedFailure ⟨1, []⟩
        [frameStdout "some out".toList,
         frameStderr "SyntaxError: invalid syntax".toList] := by
  have hp : parse_missing_module "SyntaxError: invalid syntax".toList = none := by
    decide
  have h := claim_C7_unrecognized envSyntaxError true [] 0 19 [] 1 "some out".toList
    "SyntaxError: invalid syntax".toList rfl (by decide) (by decide) hp
  exact ⟨hp, by simpa [resolve_dependencies, max_retries] using h⟩

/-- The pip run is always an actual invocation of the package manager. -/
theorem runPip_pipInvoked (env : InstallEnv) : (runPip env).pipInvoked = true := by
  unfold runPip
  cases env.pip with
  | exited rc out err =>
    by_cases h : rc = 0 <;> simp [h, InstallResult.pipInvoked]
  | fnf => rfl

/-- Every call of `install_package` either short-circuits (empty name,
interrupt, declined) or is a pip invocation. -/
theorem install_package_cases (name pyexe : List Char) (ay : Bool) (env : InstallEnv) :
    install_package name pyexe ay env = InstallResult.emptyName ∨
    install_package name pyexe ay env = InstallResult.interrupted ∨
    install_package name pyexe ay env = InstallResult.declined ∨
    install_package name pyexe ay env = runPip env := by
  unfold install_package
  by_cases h1 : name = []
  · rw [if_pos h1]
    exact Or.inl rfl
  · rw [if_neg h1]
    by_cases h2 : ay = true
    · rw [if_pos h2]
      exact Or.inr (Or.inr (Or.inr rfl))
    · rw [if_neg h2]
      cases env.prompt with
      | interrupt => exact Or.inr (Or.inl rfl)
      | response r =>
        dsimp only
        by_cases h3 : pyStrip (pyLower r) ∈ consentResponses
        · rw [if_pos h3]
          exact Or.inr (Or.inr (Or.inr rfl))
        · rw [if_neg h3]
          exact Or.inr (Or.inr (Or.inl rfl))

/-- C8: `install_package` reports `installed = true` exactly when pip
was invoked and exited 0; when pip was invoked and exited nonzero the
result is the failure outcome, whose diagnostic message contains the
exit status and the captured stderr; and an empty package name fails
immediately without invoking pip. -/
theorem claim_C8_installer_contract (name pyexe : List Char) (ay : Bool)
    (env : InstallEnv) :
    (name = [] →
      install_package name pyexe ay env = InstallResult.emptyName ∧
      (install_package name pyexe ay env).installed = false ∧
      (install_package name pyexe ay env).pipInvoked = false) ∧
    ((install_package name pyexe ay env).installed = true ↔
      ((install_package name pyexe ay env).pipInvoked = true ∧
        ∃ out err, env.pip = PipResult.exited 0 out err)) ∧
    (∀ rc out err, env.pip = PipResult.exited rc out err → rc ≠ 0 →
      (install_package name pyexe ay env).pipInvoked = true →
      install_package name pyexe ay env = InstallResult.pipFailed rc err ∧
      (toString rc).toList <:+:
        installMessage name pyexe (InstallResult.pipFailed rc err) ∧
      err <:+: installMessage name pyexe (InstallResult.pipFailed rc err)) := by
  refine ⟨?_, ?_, ?_⟩
  · intro h1
    unfold install_package
    rw [if_pos h1]
    exact ⟨rfl, rfl, rfl⟩
  · rcases install_package_cases name pyexe ay env with h | h | h | h
    · rw [h]
      simp [InstallResult.installed, InstallResult.pipInvoked]
    · rw [h]
      simp [InstallResult.installed, InstallResult.pipInvoked]
    · rw [h]
      simp [InstallResult.installed, InstallResult.pipInvoked]
    · rw [h]
      unfold runPip
      cases hp : env.pip with
      | exited rc out err =>
        dsimp only
        by_cases h0 : rc = 0
        · subst h0
          simp [InstallResult.installed, InstallResult.pipInvoked]
        · rw [if_neg h0]
          constructor
          · intro hfalse
            exact Bool.noConfusion hfalse
          · rintro ⟨-, o, e, he⟩
            exact absurd (PipResult.exited.inj he).1 h0
      | fnf =>
        constructor
        · intro hfalse
          exact Bool.noConfusion hfalse
        · rintro ⟨-, o, e, he⟩
          exact PipResult.noConfusion he
  · intro rc out err hpip hrc
    rcases install_package_cases name pyexe ay env with h | h | h | h
    · rw [h]
      intro hinv
      exact absurd hinv (by simp [InstallResult.pipInvoked])
    · rw [h]
      intro hinv
      exact absurd hinv (by simp [InstallResult.pipInvoked])
    · rw [h]
      intro hinv
      exact absurd hinv (by simp [InstallResult.pipInvoked])
    · intro hinv
      have hval : install_package name pyexe ay env = InstallResult.pipFailed rc err := by
        rw [h]
        unfold runPip
        rw [hpip]
        dsimp only
        rw [if_neg hrc]
      refine ⟨hval, ?_, ?_⟩
      · refine ⟨"Failed to install ".toList ++ [squote] ++ name ++ [squote] ++
          ".\n".toList ++ "pip exited with status ".toList,
          ".\n".toList ++ "Stderr:\n".toList ++ err, ?_⟩
        simp [installMessage, installFailMessage, List.append_assoc]
      · refine ⟨"Failed to install ".toList ++ [squote] ++ name ++ [squote] ++
          ".\n".toList ++ "pip exited with status ".toList ++ (toString rc).toList ++
          ".\n".toList ++ "Stderr:\n".toList, [], ?_⟩
        simp [installMessage, installFailMessage, List.append_assoc]

/-- Witness for C8: pip exits 1, so the call returns the failure
outcome carrying that status and the captured stderr. -/
theorem claim_C8_installer_contract_witness :
    failInstall.pip = PipResult.exited 1 [] "boom".toList ∧ ((1 : Int) ≠ 0) ∧
    (install_package "x".toList [] true failInstall).pipInvoked = true ∧
    install_package "x".toList [] true failInstall =
      InstallResult.pipFailed 1 "boom".toList := by
  refine ⟨rfl, by decide, by decide, ?_⟩
  exact ((claim_C8_installer_contract "x".toList [] true failInstall).2.2 1 []
    "boom".toList rfl (by decide) (by decide)).1

/-- C9: a run that finished with empty stderr takes the success branch
regardless of its exit status — nonzero exit with empty stderr produces
the same `Success` outcome, with the same printed stdout payload, as a
clean exit. -/
theorem claim_C9_silent_crash (env : Nat → AttemptEnv) (ay : Bool) (pyexe : List Char)
    (retries fuel : Nat) (pkgs : List (List Char)) (rc : Int) (out : List Char)
    (h : (env (retries + 1)).run = RunResult.finished rc out []) :
    resolveGo env ay pyexe retries pkgs (fuel + 1) =
      LoopOutcome.report Terminal.Success ⟨retries + 1, pkgs⟩ [frameStdout out] := by
  simp [resolveGo, h]

/-- Witness for C9 at an oracle whose first attempt exits 3 with empty
stderr: the loop reports `Success`. -/
theorem claim_C9_silent_crash_witness :
    (envSilentCrash 1).run = RunResult.finished 3 "out".toList [] ∧
    resolve_dependencies envSilentCrash true [] =
      LoopOutcome.report Terminal.Success ⟨1, []⟩ [frameStdout "out".toList] := by
  refine ⟨rfl, ?_⟩
  have h := claim_C9_silent_crash envSilentCrash true [] 0 19 [] 3 "out".toList rfl
  simpa [resolve_dependencies, max_retries] using h

/-- C10: with auto-confirm disabled and the prompt answered, pip is
invoked exactly when the response, lowercased and stripped, is one of
the empty string, `y`, `yes` — so pressing Enter alone consents — and
any other response returns the declined outcome, whose message is the
declined diagnostic, without invoking pip. -/
theorem claim_C10_consent_gate (name pyexe rsp : List Char) (pip : PipResult)
    (hname : name ≠ []) :
    ((install_package name pyexe false ⟨PromptEvent.response rsp, pip⟩).pipInvoked = true ↔
      pyStrip (pyLower rsp) ∈ consentResponses) ∧
    (pyStrip (pyLower rsp) ∉ consentResponses →
      install_package name pyexe false ⟨PromptEvent.response rsp, pip⟩ =
        InstallResult.declined ∧
      (install_package name pyexe false ⟨PromptEvent.response rsp, pip⟩).installed =
        false ∧
      installMessage name pyexe InstallResult.declined = declinedMessage name) := by
  have hun : install_package name pyexe false ⟨PromptEvent.response rsp, pip⟩ =
      if pyStrip (pyLower rsp) ∈ consentResponses then
        runPip ⟨PromptEvent.response rsp, pip⟩
      else InstallResult.declined := by
    unfold install_package
    rw [if_neg hname, if_neg (by simp)]
  constructor
  · rw [hun]
    by_cases h : pyStrip (pyLower rsp) ∈ consentResponses
    · rw [if_pos h]
      simp [h, runPip_pipInvoked]
    · rw [if_neg h]
      simp [h, InstallResult.pipInvoked]
  · intro h
    rw [hun, if_neg h]
    exact ⟨rfl, rfl, rfl⟩

/-- Witness for C10: the empty response (Enter alone) consents, so pip
is invoked; the response `n` is declined. -/
theorem claim_C10_consent_gate_witness :
    ("x".toList ≠ []) ∧ pyStrip (pyLower []) ∈ consentResponses ∧
    (install_package "x".toList [] false
      ⟨PromptEvent.response [], PipResult.exited 0 [] []⟩).pipInvoked = true := by
  refine ⟨by decide, by decide, ?_⟩
  exact (claim_C10_consent_gate "x".toList [] [] (PipResult.exited 0 [] [])
    (by decide)).1.mpr (by decide)

end DependencyGuesser
